import Mathlib

/-!
Verification of the I/O tracing decorator layer implemented in
`env/file_system_tracer.cc`.

The wrappers there forward every call to an underlying target, bracket the
forwarded call with two `Timestamp()` readings, build one `IOTraceRecord`
(or, for `MultiRead`, one per sub-request) and hand it to
`io_tracer_->WriteIOOp`, discarding whatever `WriteIOOp` returns, and finally
return the target's result unchanged.

Embedding conventions:
- The underlying target of each operation is a parameter: a function taking
  the same arguments the C++ target method takes plus a target state `σ`,
  returning the caller-visible outputs (status plus any out-parameter values)
  and the updated state.  Threading `σ` models the target's in-place effects
  (file contents, directory trees, mutation of out-parameters).
- The two `Timestamp()` readings around the forwarded call are the parameters
  `start_time` and `end_time`; timestamps are `uint64_t`, so the latency
  `end_time - start_time` is the unsigned 64-bit difference `sub64`.
- Each wrapper call is a pure function producing a `Traced` value: the value
  returned to the caller, the target state after the call, and the list of
  records passed to `WriteIOOp`, in order.  `runWithTracer` then replays those
  `WriteIOOp` calls against an arbitrary sink behavior.
- Types that only the headers declare (`IOStatus`, `IOTraceRecord`, `Slice`,
  `FSReadRequest`, option/context types) are modelled from the spec, as noted
  on each.
-/

/-- Modelled from the spec: the per-call option arguments (`IOOptions`,
`FileOptions`) and the diagnostic context (`IODebugContext*`); the tracer only
forwards them, so their contents are irrelevant here. -/
abbrev IOOptions : Type := Unit

/-- Modelled from the spec: file-creation options forwarded unchanged. -/
abbrev FileOptions : Type := Unit

/-- Modelled from the spec: the debug/diagnostic context forwarded unchanged. -/
abbrev IODebugContext : Type := Unit

/-- Modelled from the spec: an open writable-file handle produced by
`NewWritableFile` (declared outside src/); the tracer never inspects it. -/
abbrev FSWritableFile : Type := Nat

/-- Modelled from the spec: an open directory handle produced by
`NewDirectory` (declared outside src/); the tracer never inspects it. -/
abbrev FSDirectory : Type := Nat

/-- Modelled from the spec: a status value as returned by the underlying file
system (`IOStatus`, declared outside src/).  `ok` distinguishes success from
failure; `subcode` and `msg` identify the specific failure. -/
structure IOStatus where
  ok : Bool := true
  subcode : Nat := 0
  msg : String := ""
deriving DecidableEq, Inhabited

/-- Modelled from the spec: the string form of a status, "success or the
specific failure description" (`IOStatus::ToString` is declared outside src/).
The wrappers apply it to the status they return to the caller. -/
def IOStatus.ToString (s : IOStatus) : String :=
  if s.ok then "OK"
  else "IO error(" ++ Nat.repr s.subcode ++ "): " ++ s.msg

/-- The `TraceType` values `file_system_tracer.cc` uses as record categories. -/
inductive TraceType where
  | kIOGeneral
  | kIOFileName
  | kIOFileNameAndFileSize
  | kIOLen
  | kIOLenAndOffset
deriving DecidableEq, Inhabited

/-- Modelled from the spec: one Trace Record (`IOTraceRecord`, declared
outside src/): completion timestamp, category, operation name, latency,
outcome string, and the optional per-category payload (resource name, byte
length, byte offset, resulting size).  Payload fields a given call does not
set keep these defaults. -/
structure IOTraceRecord where
  access_timestamp : Nat := 0
  trace_type : TraceType := TraceType.kIOGeneral
  file_operation : String := ""
  latency : Nat := 0
  io_status : String := ""
  file_name : String := ""
  len : Nat := 0
  offset : Nat := 0
  file_size : Nat := 0
deriving DecidableEq, Inhabited

/-- Modelled from the spec: a byte slice (`Slice`, declared outside src/);
the tracer observes only its size after the call. -/
structure Slice where
  data : String := ""
deriving DecidableEq, Inhabited

/-- Size of a slice, as `Slice::size()`. -/
def Slice.size (s : Slice) : Nat := s.data.length

/-- Modelled from the spec: one sub-request of a batched read
(`FSReadRequest`, declared outside src/): its offset and requested length,
and the result slice and individual status the target fills in during
`MultiRead`. -/
structure FSReadRequest where
  offset : Nat := 0
  len : Nat := 0
  result : Slice := {}
  status : IOStatus := {}
deriving DecidableEq, Inhabited

/-- Unsigned 64-bit subtraction: the wrappers compute `end_time - start_time`
on `uint64_t` operands, which wraps modulo `2 ^ 64`. -/
def sub64 (a b : Nat) : Nat :=
  (a % 2 ^ 64 + (2 ^ 64 - b % 2 ^ 64)) % 2 ^ 64

/-- Outcome of one traced wrapper call: the value the wrapper returns to the
caller (including the values left in out-parameters), the target state after
the forwarded call, and the records passed to `io_tracer_->WriteIOOp`, in
order. -/
structure Traced (σ α : Type) where
  ret : α
  fsState : σ
  records : List IOTraceRecord
deriving DecidableEq

/-- Replays a traced call against a sink behavior `writeIOOp` (the
`IOTracer::WriteIOOp` implementation, which may fail): the wrapper hands each
record to the sink in order and discards the status the sink returns, exactly
as `file_system_tracer.cc` ignores the result of `io_tracer_->WriteIOOp`.
Returns what the caller sees, the target state, and the final sink state. -/
def runWithTracer {τ σ α : Type} (writeIOOp : IOTraceRecord → τ → τ × IOStatus)
    (t : Traced σ α) (st : τ) : α × σ × τ :=
  (t.ret, t.fsState, t.records.foldl (fun s rec => (writeIOOp rec s).1) st)

/-- Embedding of `FileSystemTracingWrapper::NewWritableFile`
(file_system_tracer.cc lines 19-29): forward, then emit one `kIOFileName`
record carrying the file name and the status string. -/
def FileSystemTracingWrapper.NewWritableFile {σ : Type}
    (target_NewWritableFile : String → FileOptions → IODebugContext → σ →
      (IOStatus × Option FSWritableFile) × σ)
    (start_time end_time : Nat) (fname : String) (file_opts : FileOptions)
    (dbg : IODebugContext) (st : σ) :
    Traced σ (IOStatus × Option FSWritableFile) :=
  let r := target_NewWritableFile fname file_opts dbg st
  { ret := r.1, fsState := r.2,
    records := [{ access_timestamp := end_time,
                  trace_type := TraceType.kIOFileName,
                  file_operation := "NewWritableFile",
                  latency := sub64 end_time start_time,
                  io_status := r.1.1.ToString,
                  file_name := fname }] }

/-- Embedding of `FileSystemTracingWrapper::NewDirectory`
(file_system_tracer.cc lines 31-41). -/
def FileSystemTracingWrapper.NewDirectory {σ : Type}
    (target_NewDirectory : String → IOOptions → IODebugContext → σ →
      (IOStatus × Option FSDirectory) × σ)
    (start_time end_time : Nat) (name : String) (io_opts : IOOptions)
    (dbg : IODebugContext) (st : σ) :
    Traced σ (IOStatus × Option FSDirectory) :=
  let r := target_NewDirectory name io_opts dbg st
  { ret := r.1, fsState := r.2,
    records := [{ access_timestamp := end_time,
                  trace_type := TraceType.kIOFileName,
                  file_operation := "NewDirectory",
                  latency := sub64 end_time start_time,
                  io_status := r.1.1.ToString,
                  file_name := name }] }

/-- Embedding of `FileSystemTracingWrapper::GetChildren`
(file_system_tracer.cc lines 43-54); the children vector `r` is an
out-parameter, so its post-call value is part of `ret`. -/
def FileSystemTracingWrapper.GetChildren {σ : Type}
    (target_GetChildren : String → IOOptions → IODebugContext → σ →
      (IOStatus × List String) × σ)
    (start_time end_time : Nat) (dir : String) (io_opts : IOOptions)
    (dbg : IODebugContext) (st : σ) :
    Traced σ (IOStatus × List String) :=
  let r := target_GetChildren dir io_opts dbg st
  { ret := r.1, fsState := r.2,
    records := [{ access_timestamp := end_time,
                  trace_type := TraceType.kIOFileName,
                  file_operation := "GetChildren",
                  latency := sub64 end_time start_time,
                  io_status := r.1.1.ToString,
                  file_name := dir }] }

/-- Embedding of `FileSystemTracingWrapper::DeleteFile`
(file_system_tracer.cc lines 56-66). -/
def FileSystemTracingWrapper.DeleteFile {σ : Type}
    (target_DeleteFile : String → IOOptions → IODebugContext → σ →
      IOStatus × σ)
    (start_time end_time : Nat) (fname : String) (options : IOOptions)
    (dbg : IODebugContext) (st : σ) : Traced σ IOStatus :=
  let r := target_DeleteFile fname options dbg st
  { ret := r.1, fsState := r.2,
    records := [{ access_timestamp := end_time,
                  trace_type := TraceType.kIOFileName,
                  file_operation := "DeleteFile",
                  latency := sub64 end_time start_time,
                  io_status := r.1.ToString,
                  file_name := fname }] }

/-- Embedding of `FileSystemTracingWrapper::CreateDir`
(file_system_tracer.cc lines 68-78). -/
def FileSystemTracingWrapper.CreateDir {σ : Type}
    (target_CreateDir : String → IOOptions → IODebugContext → σ →
      IOStatus × σ)
    (start_time end_time : Nat) (dirname : String) (options : IOOptions)
    (dbg : IODebugContext) (st : σ) : Traced σ IOStatus :=
  let r := target_CreateDir dirname options dbg st
  { ret := r.1, fsState := r.2,
    records := [{ access_timestamp := end_time,
                  trace_type := TraceType.kIOFileName,
                  file_operation := "CreateDir",
                  latency := sub64 end_time start_time,
                  io_status := r.1.ToString,
                  file_name := dirname }] }

/-- Embedding of `FileSystemTracingWrapper::CreateDirIfMissing`
(file_system_tracer.cc lines 80-89). -/
def FileSystemTracingWrapper.CreateDirIfMissing {σ : Type}
    (target_CreateDirIfMissing : String → IOOptions → IODebugContext → σ →
      IOStatus × σ)
    (start_time end_time : Nat) (dirname : String) (options : IOOptions)
    (dbg : IODebugContext) (st : σ) : Traced σ IOStatus :=
  let r := target_CreateDirIfMissing dirname options dbg st
  { ret := r.1, fsState := r.2,
    records := [{ access_timestamp := end_time,
                  trace_type := TraceType.kIOFileName,
                  file_operation := "CreateDirIfMissing",
                  latency := sub64 end_time start_time,
                  io_status := r.1.ToString,
                  file_name := dirname }] }

/-- Embedding of `FileSystemTracingWrapper::DeleteDir`
(file_system_tracer.cc lines 91-101). -/
def FileSystemTracingWrapper.DeleteDir {σ : Type}
    (target_DeleteDir : String → IOOptions → IODebugContext → σ →
      IOStatus × σ)
    (start_time end_time : Nat) (dirname : String) (options : IOOptions)
    (dbg : IODebugContext) (st : σ) : Traced σ IOStatus :=
  let r := target_DeleteDir dirname options dbg st
  { ret := r.1, fsState := r.2,
    records := [{ access_timestamp := end_time,
                  trace_type := TraceType.kIOFileName,
                  file_operation := "DeleteDir",
                  latency := sub64 end_time start_time,
                  io_status := r.1.ToString,
                  file_name := dirname }] }

/-- Embedding of `FileSystemTracingWrapper::GetFileSize`
(file_system_tracer.cc lines 103-115): the record is `kIOFileNameAndFileSize`
and carries `fname` and the post-call value of the `file_size`
out-parameter. -/
def FileSystemTracingWrapper.GetFileSize {σ : Type}
    (target_GetFileSize : String → IOOptions → IODebugContext → σ →
      (IOStatus × Nat) × σ)
    (start_time end_time : Nat) (fname : String) (options : IOOptions)
    (dbg : IODebugContext) (st : σ) : Traced σ (IOStatus × Nat) :=
  let r := target_GetFileSize fname options dbg st
  { ret := r.1, fsState := r.2,
    records := [{ access_timestamp := end_time,
                  trace_type := TraceType.kIOFileNameAndFileSize,
                  file_operation := "GetFileSize",
                  latency := sub64 end_time start_time,
                  io_status := r.1.1.ToString,
                  file_name := fname,
                  file_size := r.1.2 }] }

/-- Embedding of `FSSequentialFileTracingWrapper::Read`
(file_system_tracer.cc lines 117-128): the record is `kIOLen` and its length
payload is `result->size()` after the call, the bytes actually returned.
`scratch` is the caller-supplied buffer, opaque here. -/
def FSSequentialFileTracingWrapper.Read {σ : Type}
    (target_Read : Nat → IOOptions → Unit → IODebugContext → σ →
      (IOStatus × Slice) × σ)
    (start_time end_time : Nat) (n : Nat) (options : IOOptions)
    (scratch : Unit) (dbg : IODebugContext) (st : σ) :
    Traced σ (IOStatus × Slice) :=
  let r := target_Read n options scratch dbg st
  { ret := r.1, fsState := r.2,
    records := [{ access_timestamp := end_time,
                  trace_type := TraceType.kIOLen,
                  file_operation := "Read",
                  latency := sub64 end_time start_time,
                  io_status := r.1.1.ToString,
                  len := r.1.2.size }] }

/-- Embedding of `FSSequentialFileTracingWrapper::InvalidateCache`
(file_system_tracer.cc lines 130-139): `kIOLenAndOffset` with the requested
`length` and `offset`. -/
def FSSequentialFileTracingWrapper.InvalidateCache {σ : Type}
    (target_InvalidateCache : Nat → Nat → σ → IOStatus × σ)
    (start_time end_time : Nat) (offset length : Nat) (st : σ) :
    Traced σ IOStatus :=
  let r := target_InvalidateCache offset length st
  { ret := r.1, fsState := r.2,
    records := [{ access_timestamp := end_time,
                  trace_type := TraceType.kIOLenAndOffset,
                  file_operation := "InvalidateCache",
                  latency := sub64 end_time start_time,
                  io_status := r.1.ToString,
                  len := length,
                  offset := offset }] }

/-- Embedding of `FSSequentialFileTracingWrapper::PositionedRead`
(file_system_tracer.cc lines 141-153): `kIOLenAndOffset` with
`result->size()` after the call and the explicit `offset`. -/
def FSSequentialFileTracingWrapper.PositionedRead {σ : Type}
    (target_PositionedRead : Nat → Nat → IOOptions → Unit → IODebugContext →
      σ → (IOStatus × Slice) × σ)
    (start_time end_time : Nat) (offset n : Nat) (options : IOOptions)
    (scratch : Unit) (dbg : IODebugContext) (st : σ) :
    Traced σ (IOStatus × Slice) :=
  let r := target_PositionedRead offset n options scratch dbg st
  { ret := r.1, fsState := r.2,
    records := [{ access_timestamp := end_time,
                  trace_type := TraceType.kIOLenAndOffset,
                  file_operation := "PositionedRead",
                  latency := sub64 end_time start_time,
                  io_status := r.1.1.ToString,
                  len := r.1.2.size,
                  offset := offset }] }

/-- Embedding of `FSRandomAccessFileTracingWrapper::Read`
(file_system_tracer.cc lines 155-166): `kIOLenAndOffset` with the requested
length argument `n` and the `offset`, regardless of the result size. -/
def FSRandomAccessFileTracingWrapper.Read {σ : Type}
    (target_Read : Nat → Nat → IOOptions → Unit → IODebugContext → σ →
      (IOStatus × Slice) × σ)
    (start_time end_time : Nat) (offset n : Nat) (options : IOOptions)
    (scratch : Unit) (dbg : IODebugContext) (st : σ) :
    Traced σ (IOStatus × Slice) :=
  let r := target_Read offset n options scratch dbg st
  { ret := r.1, fsState := r.2,
    records := [{ access_timestamp := end_time,
                  trace_type := TraceType.kIOLenAndOffset,
                  file_operation := "Read",
                  latency := sub64 end_time start_time,
                  io_status := r.1.1.ToString,
                  len := n,
                  offset := offset }] }

/-- Embedding of `FSRandomAccessFileTracingWrapper::MultiRead`
(file_system_tracer.cc lines 168-183): forward the whole batch once, read the
clock once after it, then loop `i = 0 .. num_reqs-1` emitting one
`kIOLenAndOffset` record per sub-request, each with the post-call
`reqs[i].status/len/offset` and all with the single `latency` and `end_time`.
The `reqs` array is mutated in place by the target, so `ret` carries the
aggregate status together with the post-call array. -/
def FSRandomAccessFileTracingWrapper.MultiRead {σ : Type}
    (target_MultiRead : List FSReadRequest → IOOptions → IODebugContext → σ →
      (IOStatus × List FSReadRequest) × σ)
    (start_time end_time : Nat) (reqs : List FSReadRequest)
    (options : IOOptions) (dbg : IODebugContext) (st : σ) :
    Traced σ (IOStatus × List FSReadRequest) :=
  let r := target_MultiRead reqs options dbg st
  let latency := sub64 end_time start_time
  { ret := (r.1.1, r.1.2), fsState := r.2,
    records := (List.range reqs.length).map (fun i =>
      let q := r.1.2.getD i default
      { access_timestamp := end_time,
        trace_type := TraceType.kIOLenAndOffset,
        file_operation := "MultiRead",
        latency := latency,
        io_status := q.status.ToString,
        len := q.len,
        offset := q.offset }) }

/-- Embedding of `FSRandomAccessFileTracingWrapper::Prefetch`
(file_system_tracer.cc lines 185-195). -/
def FSRandomAccessFileTracingWrapper.Prefetch {σ : Type}
    (target_Prefetch : Nat → Nat → IOOptions → IODebugContext → σ →
      IOStatus × σ)
    (start_time end_time : Nat) (offset n : Nat) (options : IOOptions)
    (dbg : IODebugContext) (st : σ) : Traced σ IOStatus :=
  let r := target_Prefetch offset n options dbg st
  { ret := r.1, fsState := r.2,
    records := [{ access_timestamp := end_time,
                  trace_type := TraceType.kIOLenAndOffset,
                  file_operation := "Prefetch",
                  latency := sub64 end_time start_time,
                  io_status := r.1.ToString,
                  len := n,
                  offset := offset }] }

/-- Embedding of `FSRandomAccessFileTracingWrapper::InvalidateCache`
(file_system_tracer.cc lines 197-207). -/
def FSRandomAccessFileTracingWrapper.InvalidateCache {σ : Type}
    (target_InvalidateCache : Nat → Nat → σ → IOStatus × σ)
    (start_time end_time : Nat) (offset length : Nat) (st : σ) :
    Traced σ IOStatus :=
  let r := target_InvalidateCache offset length st
  { ret := r.1, fsState := r.2,
    records := [{ access_timestamp := end_time,
                  trace_type := TraceType.kIOLenAndOffset,
                  file_operation := "InvalidateCache",
                  latency := sub64 end_time start_time,
                  io_status := r.1.ToString,
                  len := length,
                  offset := offset }] }

/-- Embedding of `FSWritableFileTracingWrapper::Append`
(file_system_tracer.cc lines 209-219): `kIOLen` with `data.size()`, the
number of bytes submitted. -/
def FSWritableFileTracingWrapper.Append {σ : Type}
    (target_Append : Slice → IOOptions → IODebugContext → σ → IOStatus × σ)
    (start_time end_time : Nat) (data : Slice) (options : IOOptions)
    (dbg : IODebugContext) (st : σ) : Traced σ IOStatus :=
  let r := target_Append data options dbg st
  { ret := r.1, fsState := r.2,
    records := [{ access_timestamp := end_time,
                  trace_type := TraceType.kIOLen,
                  file_operation := "Append",
                  latency := sub64 end_time start_time,
                  io_status := r.1.ToString,
                  len := data.size }] }

/-- Embedding of `FSWritableFileTracingWrapper::PositionedAppend`
(file_system_tracer.cc lines 221-232). -/
def FSWritableFileTracingWrapper.PositionedAppend {σ : Type}
    (target_PositionedAppend : Slice → Nat → IOOptions → IODebugContext → σ →
      IOStatus × σ)
    (start_time end_time : Nat) (data : Slice) (offset : Nat)
    (options : IOOptions) (dbg : IODebugContext) (st : σ) :
    Traced σ IOStatus :=
  let r := target_PositionedAppend data offset options dbg st
  { ret := r.1, fsState := r.2,
    records := [{ access_timestamp := end_time,
                  trace_type := TraceType.kIOLenAndOffset,
                  file_operation := "PositionedAppend",
                  latency := sub64 end_time start_time,
                  io_status := r.1.ToString,
                  len := data.size,
                  offset := offset }] }

/-- Embedding of `FSWritableFileTracingWrapper::Truncate`
(file_system_tracer.cc lines 234-244): `kIOLen` with the target size. -/
def FSWritableFileTracingWrapper.Truncate {σ : Type}
    (target_Truncate : Nat → IOOptions → IODebugContext → σ → IOStatus × σ)
    (start_time end_time : Nat) (size : Nat) (options : IOOptions)
    (dbg : IODebugContext) (st : σ) : Traced σ IOStatus :=
  let r := target_Truncate size options dbg st
  { ret := r.1, fsState := r.2,
    records := [{ access_timestamp := end_time,
                  trace_type := TraceType.kIOLen,
                  file_operation := "Truncate",
                  latency := sub64 end_time start_time,
                  io_status := r.1.ToString,
                  len := size }] }

/-- Embedding of `FSWritableFileTracingWrapper::Close`
(file_system_tracer.cc lines 246-255): a `kIOGeneral` record with no payload
beyond the status string. -/
def FSWritableFileTracingWrapper.Close {σ : Type}
    (target_Close : IOOptions → IODebugContext → σ → IOStatus × σ)
    (start_time end_time : Nat) (options : IOOptions) (dbg : IODebugContext)
    (st : σ) : Traced σ IOStatus :=
  let r := target_Close options dbg st
  { ret := r.1, fsState := r.2,
    records := [{ access_timestamp := end_time,
                  trace_type := TraceType.kIOGeneral,
                  file_operation := "Close",
                  latency := sub64 end_time start_time,
                  io_status := r.1.ToString }] }

/-- Embedding of `FSWritableFileTracingWrapper::GetFileSize`
(file_system_tracer.cc lines 257-267): returns the target's size (there is no
status); the record is `kIOFileNameAndFileSize` with the literal operation
name "GetFileSize" (not `__func__`), an empty string as the file-name
placeholder, and the returned size — this argument-to-field mapping is
modelled from the spec, since the `IOTraceRecord` constructor is declared
outside src/. -/
def FSWritableFileTracingWrapper.GetFileSize {σ : Type}
    (target_GetFileSize : IOOptions → IODebugContext → σ → Nat × σ)
    (start_time end_time : Nat) (options : IOOptions) (dbg : IODebugContext)
    (st : σ) : Traced σ Nat :=
  let r := target_GetFileSize options dbg st
  { ret := r.1, fsState := r.2,
    records := [{ access_timestamp := end_time,
                  trace_type := TraceType.kIOFileNameAndFileSize,
                  file_operation := "GetFileSize",
                  latency := sub64 end_time start_time,
                  file_name := "",
                  file_size := r.1 }] }

/-- Embedding of `FSWritableFileTracingWrapper::InvalidateCache`
(file_system_tracer.cc lines 269-279). -/
def FSWritableFileTracingWrapper.InvalidateCache {σ : Type}
    (target_InvalidateCache : Nat → Nat → σ → IOStatus × σ)
    (start_time end_time : Nat) (offset length : Nat) (st : σ) :
    Traced σ IOStatus :=
  let r := target_InvalidateCache offset length st
  { ret := r.1, fsState := r.2,
    records := [{ access_timestamp := end_time,
                  trace_type := TraceType.kIOLenAndOffset,
                  file_operation := "InvalidateCache",
                  latency := sub64 end_time start_time,
                  io_status := r.1.ToString,
                  len := length,
                  offset := offset }] }

/-- Embedding of `FSRandomRWFileTracingWrapper::Write`
(file_system_tracer.cc lines 281-292): `kIOLenAndOffset` with `data.size()`
and the offset. -/
def FSRandomRWFileTracingWrapper.Write {σ : Type}
    (target_Write : Nat → Slice → IOOptions → IODebugContext → σ →
      IOStatus × σ)
    (start_time end_time : Nat) (offset : Nat) (data : Slice)
    (options : IOOptions) (dbg : IODebugContext) (st : σ) :
    Traced σ IOStatus :=
  let r := target_Write offset data options dbg st
  { ret := r.1, fsState := r.2,
    records := [{ access_timestamp := end_time,
                  trace_type := TraceType.kIOLenAndOffset,
                  file_operation := "Write",
                  latency := sub64 end_time start_time,
                  io_status := r.1.ToString,
                  len := data.size,
                  offset := offset }] }

/-- Embedding of `FSRandomRWFileTracingWrapper::Read`
(file_system_tracer.cc lines 294-305): `kIOLenAndOffset` with the requested
length `n` and the offset. -/
def FSRandomRWFileTracingWrapper.Read {σ : Type}
    (target_Read : Nat → Nat → IOOptions → Unit → IODebugContext → σ →
      (IOStatus × Slice) × σ)
    (start_time end_time : Nat) (offset n : Nat) (options : IOOptions)
    (scratch : Unit) (dbg : IODebugContext) (st : σ) :
    Traced σ (IOStatus × Slice) :=
  let r := target_Read offset n options scratch dbg st
  { ret := r.1, fsState := r.2,
    records := [{ access_timestamp := end_time,
                  trace_type := TraceType.kIOLenAndOffset,
                  file_operation := "Read",
                  latency := sub64 end_time start_time,
                  io_status := r.1.1.ToString,
                  len := n,
                  offset := offset }] }

/-- C1. Transparency: for every wrapper operation and all target behaviors,
inputs, clock readings and target states, the pair (value returned to the
caller, target state after the call) is exactly the target's own result on
the same inputs — the status, the out-parameter contents (result handle,
children vector, file size, result slices, mutated request array) and the
target's effect are untouched by tracing. -/
theorem wrapper_transparency :
    (∀ (σ : Type) tgt s e fname opts dbg (st : σ),
      ((FileSystemTracingWrapper.NewWritableFile tgt s e fname opts dbg st).ret,
       (FileSystemTracingWrapper.NewWritableFile tgt s e fname opts dbg st).fsState) =
      tgt fname opts dbg st) ∧
    (∀ (σ : Type) tgt s e name opts dbg (st : σ),
      ((FileSystemTracingWrapper.NewDirectory tgt s e name opts dbg st).ret,
       (FileSystemTracingWrapper.NewDirectory tgt s e name opts dbg st).fsState) =
      tgt name opts dbg st) ∧
    (∀ (σ : Type) tgt s e dir opts dbg (st : σ),
      ((FileSystemTracingWrapper.GetChildren tgt s e dir opts dbg st).ret,
       (FileSystemTracingWrapper.GetChildren tgt s e dir opts dbg st).fsState) =
      tgt dir opts dbg st) ∧
    (∀ (σ : Type) tgt s e fname opts dbg (st : σ),
      ((FileSystemTracingWrapper.DeleteFile tgt s e fname opts dbg st).ret,
       (FileSystemTracingWrapper.DeleteFile tgt s e fname opts dbg st).fsState) =
      tgt fname opts dbg st) ∧
    (∀ (σ : Type) tgt s e dirname opts dbg (st : σ),
      ((FileSystemTracingWrapper.CreateDir tgt s e dirname opts dbg st).ret,
       (FileSystemTracingWrapper.CreateDir tgt s e dirname opts dbg st).fsState) =
      tgt dirname opts dbg st) ∧
    (∀ (σ : Type) tgt s e dirname opts dbg (st : σ),
      ((FileSystemTracingWrapper.CreateDirIfMissing tgt s e dirname opts dbg st).ret,
       (FileSystemTracingWrapper.CreateDirIfMissing tgt s e dirname opts dbg st).fsState) =
      tgt dirname opts dbg st) ∧
    (∀ (σ : Type) tgt s e dirname opts dbg (st : σ),
      ((FileSystemTracingWrapper.DeleteDir tgt s e dirname opts dbg st).ret,
       (FileSystemTracingWrapper.DeleteDir tgt s e dirname opts dbg st).fsState) =
      tgt dirname opts dbg st) ∧
    (∀ (σ : Type) tgt s e fname opts dbg (st : σ),
      ((FileSystemTracingWrapper.GetFileSize tgt s e fname opts dbg st).ret,
       (FileSystemTracingWrapper.GetFileSize tgt s e fname opts dbg st).fsState) =
      tgt fname opts dbg st) ∧
    (∀ (σ : Type) tgt s e n opts scratch dbg (st : σ),
      ((FSSequentialFileTracingWrapper.Read tgt s e n opts scratch dbg st).ret,
       (FSSequentialFileTracingWrapper.Read tgt s e n opts scratch dbg st).fsState) =
      tgt n opts scratch dbg st) ∧
    (∀ (σ : Type) tgt s e offset length (st : σ),
      ((FSSequentialFileTracingWrapper.InvalidateCache tgt s e offset length st).ret,
       (FSSequentialFileTracingWrapper.InvalidateCache tgt s e offset length st).fsState) =
      tgt offset length st) ∧
    (∀ (σ : Type) tgt s e offset n opts scratch dbg (st : σ),
      ((FSSequentialFileTracingWrapper.PositionedRead tgt s e offset n opts scratch dbg st).ret,
       (FSSequentialFileTracingWrapper.PositionedRead tgt s e offset n opts scratch dbg st).fsState) =
      tgt offset n opts scratch dbg st) ∧
    (∀ (σ : Type) tgt s e offset n opts scratch dbg (st : σ),
      ((FSRandomAccessFileTracingWrapper.Read tgt s e offset n opts scratch dbg st).ret,
       (FSRandomAccessFileTracingWrapper.Read tgt s e offset n opts scratch dbg st).fsState) =
      tgt offset n opts scratch dbg st) ∧
    (∀ (σ : Type) tgt s e reqs opts dbg (st : σ),
      ((FSRandomAccessFileTracingWrapper.MultiRead tgt s e reqs opts dbg st).ret,
       (FSRandomAccessFileTracingWrapper.MultiRead tgt s e reqs opts dbg st).fsState) =
      tgt reqs opts dbg st) ∧
    (∀ (σ : Type) tgt s e offset n opts dbg (st : σ),
      ((FSRandomAccessFileTracingWrapper.Prefetch tgt s e offset n opts dbg st).ret,
       (FSRandomAccessFileTracingWrapper.Prefetch tgt s e offset n opts dbg st).fsState) =
      tgt offset n opts dbg st) ∧
    (∀ (σ : Type) tgt s e offset length (st : σ),
      ((FSRandomAccessFileTracingWrapper.InvalidateCache tgt s e offset length st).ret,
       (FSRandomAccessFileTracingWrapper.InvalidateCache tgt s e offset length st).fsState) =
      tgt offset length st) ∧
    (∀ (σ : Type) tgt s e data opts dbg (st : σ),
      ((FSWritableFileTracingWrapper.Append tgt s e data opts dbg st).ret,
       (FSWritableFileTracingWrapper.Append tgt s e data opts dbg st).fsState) =
      tgt data opts dbg st) ∧
    (∀ (σ : Type) tgt s e data offset opts dbg (st : σ),
      ((FSWritableFileTracingWrapper.PositionedAppend tgt s e data offset opts dbg st).ret,
       (FSWritableFileTracingWrapper.PositionedAppend tgt s e data offset opts dbg st).fsState) =
      tgt data offset opts dbg st) ∧
    (∀ (σ : Type) tgt s e size opts dbg (st : σ),
      ((FSWritableFileTracingWrapper.Truncate tgt s e size opts dbg st).ret,
       (FSWritableFileTracingWrapper.Truncate tgt s e size opts dbg st).fsState) =
      tgt size opts dbg st) ∧
    (∀ (σ : Type) tgt s e opts dbg (st : σ),
      ((FSWritableFileTracingWrapper.Close tgt s e opts dbg st).ret,
       (FSWritableFileTracingWrapper.Close tgt s e opts dbg st).fsState) =
      tgt opts dbg st) ∧
    (∀ (σ : Type) tgt s e opts dbg (st : σ),
      ((FSWritableFileTracingWrapper.GetFileSize tgt s e opts dbg st).ret,
       (FSWritableFileTracingWrapper.GetFileSize tgt s e opts dbg st).fsState) =
      tgt opts dbg st) ∧
    (∀ (σ : Type) tgt s e offset length (st : σ),
      ((FSWritableFileTracingWrapper.InvalidateCache tgt s e offset length st).ret,
       (FSWritableFileTracingWrapper.InvalidateCache tgt s e offset length st).fsState) =
      tgt offset length st) ∧
    (∀ (σ : Type) tgt s e offset data opts dbg (st : σ),
      ((FSRandomRWFileTracingWrapper.Write tgt s e offset data opts dbg st).ret,
       (FSRandomRWFileTracingWrapper.Write tgt s e offset data opts dbg st).fsState) =
      tgt offset data opts dbg st) ∧
    (∀ (σ : Type) tgt s e offset n opts scratch dbg (st : σ),
      ((FSRandomRWFileTracingWrapper.Read tgt s e offset n opts scratch dbg st).ret,
       (FSRandomRWFileTracingWrapper.Read tgt s e offset n opts scratch dbg st).fsState) =
      tgt offset n opts scratch dbg st) := by
  repeat' apply And.intro
  all_goals intros; rfl

/-- C2. Record count: every non-batch wrapper operation hands exactly one
record to `WriteIOOp`, and `MultiRead` with `N` sub-requests hands over
exactly `N` records, for every `N` and every target behavior. -/
theorem record_count :
    (∀ (σ : Type) tgt s e fname opts dbg (st : σ),
      (FileSystemTracingWrapper.NewWritableFile tgt s e fname opts dbg st).records.length = 1) ∧
    (∀ (σ : Type) tgt s e name opts dbg (st : σ),
      (FileSystemTracingWrapper.NewDirectory tgt s e name opts dbg st).records.length = 1) ∧
    (∀ (σ : Type) tgt s e dir opts dbg (st : σ),
      (FileSystemTracingWrapper.GetChildren tgt s e dir opts dbg st).records.length = 1) ∧
    (∀ (σ : Type) tgt s e fname opts dbg (st : σ),
      (FileSystemTracingWrapper.DeleteFile tgt s e fname opts dbg st).records.length = 1) ∧
    (∀ (σ : Type) tgt s e dirname opts dbg (st : σ),
      (FileSystemTracingWrapper.CreateDir tgt s e dirname opts dbg st).records.length = 1) ∧
    (∀ (σ : Type) tgt s e dirname opts dbg (st : σ),
      (FileSystemTracingWrapper.CreateDirIfMissing tgt s e dirname opts dbg st).records.length = 1) ∧
    (∀ (σ : Type) tgt s e dirname opts dbg (st : σ),
      (FileSystemTracingWrapper.DeleteDir tgt s e dirname opts dbg st).records.length = 1) ∧
    (∀ (σ : Type) tgt s e fname opts dbg (st : σ),
      (FileSystemTracingWrapper.GetFileSize tgt s e fname opts dbg st).records.length = 1) ∧
    (∀ (σ : Type) tgt s e n opts scratch dbg (st : σ),
      (FSSequentialFileTracingWrapper.Read tgt s e n opts scratch dbg st).records.length = 1) ∧
    (∀ (σ : Type) tgt s e offset length (st : σ),
      (FSSequentialFileTracingWrapper.InvalidateCache tgt s e offset length st).records.length = 1) ∧
    (∀ (σ : Type) tgt s e offset n opts scratch dbg (st : σ),
      (FSSequentialFileTracingWrapper.PositionedRead tgt s e offset n opts scratch dbg st).records.length = 1) ∧
    (∀ (σ : Type) tgt s e offset n opts scratch dbg (st : σ),
      (FSRandomAccessFileTracingWrapper.Read tgt s e offset n opts scratch dbg st).records.length = 1) ∧
    (∀ (σ : Type) tgt s e reqs opts dbg (st : σ),
      (FSRandomAccessFileTracingWrapper.MultiRead tgt s e reqs opts dbg st).records.length =
        reqs.length) ∧
    (∀ (σ : Type) tgt s e offset n opts dbg (st : σ),
      (FSRandomAccessFileTracingWrapper.Prefetch tgt s e offset n opts dbg st).records.length = 1) ∧
    (∀ (σ : Type) tgt s e offset length (st : σ),
      (FSRandomAccessFileTracingWrapper.InvalidateCache tgt s e offset length st).records.length = 1) ∧
    (∀ (σ : Type) tgt s e data opts dbg (st : σ),
      (FSWritableFileTracingWrapper.Append tgt s e data opts dbg st).records.length = 1) ∧
    (∀ (σ : Type) tgt s e data offset opts dbg (st : σ),
      (FSWritableFileTracingWrapper.PositionedAppend tgt s e data offset opts dbg st).records.length = 1) ∧
    (∀ (σ : Type) tgt s e size opts dbg (st : σ),
      (FSWritableFileTracingWrapper.Truncate tgt s e size opts dbg st).records.length = 1) ∧
    (∀ (σ : Type) tgt s e opts dbg (st : σ),
      (FSWritableFileTracingWrapper.Close tgt s e opts dbg st).records.length = 1) ∧
    (∀ (σ : Type) tgt s e opts dbg (st : σ),
      (FSWritableFileTracingWrapper.GetFileSize tgt s e opts dbg st).records.length = 1) ∧
    (∀ (σ : Type) tgt s e offset length (st : σ),
      (FSWritableFileTracingWrapper.InvalidateCache tgt s e offset length st).records.length = 1) ∧
    (∀ (σ : Type) tgt s e offset data opts dbg (st : σ),
      (FSRandomRWFileTracingWrapper.Write tgt s e offset data opts dbg st).records.length = 1) ∧
    (∀ (σ : Type) tgt s e offset n opts scratch dbg (st : σ),
      (FSRandomRWFileTracingWrapper.Read tgt s e offset n opts scratch dbg st).records.length = 1) := by
  repeat' apply And.intro
  all_goals intros
  all_goals
    simp [FSRandomAccessFileTracingWrapper.MultiRead,
      FileSystemTracingWrapper.NewWritableFile,
      FileSystemTracingWrapper.NewDirectory,
      FileSystemTracingWrapper.GetChildren,
      FileSystemTracingWrapper.DeleteFile,
      FileSystemTracingWrapper.CreateDir,
      FileSystemTracingWrapper.CreateDirIfMissing,
      FileSystemTracingWrapper.DeleteDir,
      FileSystemTracingWrapper.GetFileSize,
      FSSequentialFileTracingWrapper.Read,
      FSSequentialFileTracingWrapper.InvalidateCache,
      FSSequentialFileTracingWrapper.PositionedRead,
      FSRandomAccessFileTracingWrapper.Read,
      FSRandomAccessFileTracingWrapper.Prefetch,
      FSRandomAccessFileTracingWrapper.InvalidateCache,
      FSWritableFileTracingWrapper.Append,
      FSWritableFileTracingWrapper.PositionedAppend,
      FSWritableFileTracingWrapper.Truncate,
      FSWritableFileTracingWrapper.Close,
      FSWritableFileTracingWrapper.GetFileSize,
      FSWritableFileTracingWrapper.InvalidateCache,
      FSRandomRWFileTracingWrapper.Write,
      FSRandomRWFileTracingWrapper.Read]

/-- C3. Batch consistency: for a `MultiRead` whose post-call request array has
one entry per sub-request, the wrapper emits one record per sub-request in
input order (the `i`-th record is built from the `i`-th request), each record
carries that sub-request's own length, offset and individual status string,
every record carries the one shared latency `sub64 e s`, and the batch call's
aggregate status is returned to the caller separately, unchanged. -/
theorem multiRead_batch_consistency {σ : Type}
    (tgt : List FSReadRequest → IOOptions → IODebugContext → σ →
      (IOStatus × List FSReadRequest) × σ)
    (s e : Nat) (reqs : List FSReadRequest) (opts : IOOptions)
    (dbg : IODebugContext) (st : σ)
    (hlen : ((tgt reqs opts dbg st).1.2).length = reqs.length) :
    (FSRandomAccessFileTracingWrapper.MultiRead tgt s e reqs opts dbg st).records.length =
      reqs.length ∧
    (∀ i, i < reqs.length →
      ((FSRandomAccessFileTracingWrapper.MultiRead tgt s e reqs opts dbg st).records.getD i
          default).len = (((tgt reqs opts dbg st).1.2).getD i default).len ∧
      ((FSRandomAccessFileTracingWrapper.MultiRead tgt s e reqs opts dbg st).records.getD i
          default).offset = (((tgt reqs opts dbg st).1.2).getD i default).offset ∧
      ((FSRandomAccessFileTracingWrapper.MultiRead tgt s e reqs opts dbg st).records.getD i
          default).io_status =
        (((tgt reqs opts dbg st).1.2).getD i default).status.ToString ∧
      ((FSRandomAccessFileTracingWrapper.MultiRead tgt s e reqs opts dbg st).records.getD i
          default).latency = sub64 e s) ∧
    (FSRandomAccessFileTracingWrapper.MultiRead tgt s e reqs opts dbg st).ret.1 =
      (tgt reqs opts dbg st).1.1 := by
  refine ⟨?_, ?_, rfl⟩
  · simp [FSRandomAccessFileTracingWrapper.MultiRead]
  · intro i hi
    refine ⟨?_, ?_, ?_, ?_⟩ <;>
      simp [FSRandomAccessFileTracingWrapper.MultiRead, List.getD_eq_getElem?_getD,
        List.getElem?_map, List.getElem?_range, hi]

/-- Stub status for a successful call, used by concrete witnesses. -/
def statusOK : IOStatus := {}

/-- Stub status for a "not found" failure, used by concrete witnesses. -/
def statusNotFound : IOStatus := { ok := false, subcode := 2, msg := "not found" }

/-- Concrete batch of three sub-requests (offsets 0/100/200, lengths
10/20/30), used by witnesses. -/
def reqs3 : List FSReadRequest :=
  [{ offset := 0, len := 10 }, { offset := 100, len := 20 },
   { offset := 200, len := 30 }]

/-- Stub `MultiRead` target: marks the sub-request at offset 100 as failed
and the others as successful, returns an OK aggregate status. -/
def stubMultiReadTarget :
    List FSReadRequest → IOOptions → IODebugContext → Unit →
      (IOStatus × List FSReadRequest) × Unit :=
  fun reqs _ _ st =>
    ((statusOK,
      reqs.map (fun q =>
        if q.offset = 100 then { q with status := statusNotFound }
        else { q with status := statusOK })), st)

/-- Witness for C3: the concrete three-request batch satisfies the length
hypothesis, and the second emitted record carries the second sub-request's
own (failed) status string. -/
theorem multiRead_batch_consistency_witness :
    ((stubMultiReadTarget reqs3 () () ()).1.2).length = reqs3.length ∧
    ((FSRandomAccessFileTracingWrapper.MultiRead stubMultiReadTarget 3 5 reqs3 () ()
        ()).records.getD 1 default).io_status =
      (((stubMultiReadTarget reqs3 () () ()).1.2).getD 1 default).status.ToString :=
  ⟨by decide,
   ((multiRead_batch_consistency stubMultiReadTarget 3 5 reqs3 () () ()
      (by decide)).2.1 1 (by decide)).2.2.1⟩

/-- C4. Outcome fidelity: for every non-batch wrapper operation that returns
a status, the single emitted record's outcome field is exactly the string
form of the status value the wrapper returns to the caller — nothing is
fabricated, suppressed or remapped. -/
theorem outcome_fidelity :
    (∀ (σ : Type) tgt s e fname opts dbg (st : σ),
      (FileSystemTracingWrapper.NewWritableFile tgt s e fname opts dbg st).records.map
        (fun rec => rec.io_status) =
      [(FileSystemTracingWrapper.NewWritableFile tgt s e fname opts dbg st).ret.1.ToString]) ∧
    (∀ (σ : Type) tgt s e name opts dbg (st : σ),
      (FileSystemTracingWrapper.NewDirectory tgt s e name opts dbg st).records.map
        (fun rec => rec.io_status) =
      [(FileSystemTracingWrapper.NewDirectory tgt s e name opts dbg st).ret.1.ToString]) ∧
    (∀ (σ : Type) tgt s e dir opts dbg (st : σ),
      (FileSystemTracingWrapper.GetChildren tgt s e dir opts dbg st).records.map
        (fun rec => rec.io_status) =
      [(FileSystemTracingWrapper.GetChildren tgt s e dir opts dbg st).ret.1.ToString]) ∧
    (∀ (σ : Type) tgt s e fname opts dbg (st : σ),
      (FileSystemTracingWrapper.DeleteFile tgt s e fname opts dbg st).records.map
        (fun rec => rec.io_status) =
      [(FileSystemTracingWrapper.DeleteFile tgt s e fname opts dbg st).ret.ToString]) ∧
    (∀ (σ : Type) tgt s e dirname opts dbg (st : σ),
      (FileSystemTracingWrapper.CreateDir tgt s e dirname opts dbg st).records.map
        (fun rec => rec.io_status) =
      [(FileSystemTracingWrapper.CreateDir tgt s e dirname opts dbg st).ret.ToString]) ∧
    (∀ (σ : Type) tgt s e dirname opts dbg (st : σ),
      (FileSystemTracingWrapper.CreateDirIfMissing tgt s e dirname opts dbg st).records.map
        (fun rec => rec.io_status) =
      [(FileSystemTracingWrapper.CreateDirIfMissing tgt s e dirname opts dbg st).ret.ToString]) ∧
    (∀ (σ : Type) tgt s e dirname opts dbg (st : σ),
      (FileSystemTracingWrapper.DeleteDir tgt s e dirname opts dbg st).records.map
        (fun rec => rec.io_status) =
      [(FileSystemTracingWrapper.DeleteDir tgt s e dirname opts dbg st).ret.ToString]) ∧
    (∀ (σ : Type) tgt s e fname opts dbg (st : σ),
      (FileSystemTracingWrapper.GetFileSize tgt s e fname opts dbg st).records.map
        (fun rec => rec.io_status) =
      [(FileSystemTracingWrapper.GetFileSize tgt s e fname opts dbg st).ret.1.ToString]) ∧
    (∀ (σ : Type) tgt s e n opts scratch dbg (st : σ),
      (FSSequentialFileTracingWrapper.Read tgt s e n opts scratch dbg st).records.map
        (fun rec => rec.io_status) =
      [(FSSequentialFileTracingWrapper.Read tgt s e n opts scratch dbg st).ret.1.ToString]) ∧
    (∀ (σ : Type) tgt s e offset length (st : σ),
      (FSSequentialFileTracingWrapper.InvalidateCache tgt s e offset length st).records.map
        (fun rec => rec.io_status) =
      [(FSSequentialFileTracingWrapper.InvalidateCache tgt s e offset length st).ret.ToString]) ∧
    (∀ (σ : Type) tgt s e offset n opts scratch dbg (st : σ),
      (FSSequentialFileTracingWrapper.PositionedRead tgt s e offset n opts scratch dbg st).records.map
        (fun rec => rec.io_status) =
      [(FSSequentialFileTracingWrapper.PositionedRead tgt s e offset n opts scratch dbg
          st).ret.1.ToString]) ∧
    (∀ (σ : Type) tgt s e offset n opts scratch dbg (st : σ),
      (FSRandomAccessFileTracingWrapper.Read tgt s e offset n opts scratch dbg st).records.map
        (fun rec => rec.io_status) =
      [(FSRandomAccessFileTracingWrapper.Read tgt s e offset n opts scratch dbg
          st).ret.1.ToString]) ∧
    (∀ (σ : Type) tgt s e offset n opts dbg (st : σ),
      (FSRandomAccessFileTracingWrapper.Prefetch tgt s e offset n opts dbg st).records.map
        (fun rec => rec.io_status) =
      [(FSRandomAccessFileTracingWrapper.Prefetch tgt s e offset n opts dbg st).ret.ToString]) ∧
    (∀ (σ : Type) tgt s e offset length (st : σ),
      (FSRandomAccessFileTracingWrapper.InvalidateCache tgt s e offset length st).records.map
        (fun rec => rec.io_status) =
      [(FSRandomAccessFileTracingWrapper.InvalidateCache tgt s e offset length st).ret.ToString]) ∧
    (∀ (σ : Type) tgt s e data opts dbg (st : σ),
      (FSWritableFileTracingWrapper.Append tgt s e data opts dbg st).records.map
        (fun rec => rec.io_status) =
      [(FSWritableFileTracingWrapper.Append tgt s e data opts dbg st).ret.ToString]) ∧
    (∀ (σ : Type) tgt s e data offset opts dbg (st : σ),
      (FSWritableFileTracingWrapper.PositionedAppend tgt s e data offset opts dbg st).records.map
        (fun rec => rec.io_status) =
      [(FSWritableFileTracingWrapper.PositionedAppend tgt s e data offset opts dbg
          st).ret.ToString]) ∧
    (∀ (σ : Type) tgt s e size opts dbg (st : σ),
      (FSWritableFileTracingWrapper.Truncate tgt s e size opts dbg st).records.map
        (fun rec => rec.io_status) =
      [(FSWritableFileTracingWrapper.Truncate tgt s e size opts dbg st).ret.ToString]) ∧
    (∀ (σ : Type) tgt s e opts dbg (st : σ),
      (FSWritableFileTracingWrapper.Close tgt s e opts dbg st).records.map
        (fun rec => rec.io_status) =
      [(FSWritableFileTracingWrapper.Close tgt s e opts dbg st).ret.ToString]) ∧
    (∀ (σ : Type) tgt s e offset length (st : σ),
      (FSWritableFileTracingWrapper.InvalidateCache tgt s e offset length st).records.map
        (fun rec => rec.io_status) =
      [(FSWritableFileTracingWrapper.InvalidateCache tgt s e offset length st).ret.ToString]) ∧
    (∀ (σ : Type) tgt s e offset data opts dbg (st : σ),
      (FSRandomRWFileTracingWrapper.Write tgt s e offset data opts dbg st).records.map
        (fun rec => rec.io_status) =
      [(FSRandomRWFileTracingWrapper.Write tgt s e offset data opts dbg st).ret.ToString]) ∧
    (∀ (σ : Type) tgt s e offset n opts scratch dbg (st : σ),
      (FSRandomRWFileTracingWrapper.Read tgt s e offset n opts scratch dbg st).records.map
        (fun rec => rec.io_status) =
      [(FSRandomRWFileTracingWrapper.Read tgt s e offset n opts scratch dbg
          st).ret.1.ToString]) := by
  repeat' apply And.intro
  all_goals intros; rfl

/-- C5. Sink-failure isolation: replaying any traced call against any two
behaviors of the sink's `WriteIOOp` (including ones that return failures)
yields the same caller-visible value and the same target state — the wrapper
discards the sink's status, so no delivery failure reaches the caller; shown
generically for every `Traced` call outcome and concretely for
`NewWritableFile`. -/
theorem sink_failure_isolation :
    (∀ (τ σ α : Type) (f g : IOTraceRecord → τ → τ × IOStatus)
       (t : Traced σ α) (st1 st2 : τ),
      (runWithTracer f t st1).1 = (runWithTracer g t st2).1 ∧
      (runWithTracer f t st1).2.1 = (runWithTracer g t st2).2.1) ∧
    (∀ (τ σ : Type) (f g : IOTraceRecord → τ → τ × IOStatus) tgt s e fname
       opts dbg (st : σ) (st1 st2 : τ),
      (runWithTracer f
        (FileSystemTracingWrapper.NewWritableFile tgt s e fname opts dbg st) st1).1 =
      (runWithTracer g
        (FileSystemTracingWrapper.NewWritableFile tgt s e fname opts dbg st) st2).1) := by
  refine ⟨?_, ?_⟩
  · intros; exact ⟨rfl, rfl⟩
  · intros; rfl

/-- Mapping a constant function over `List.range` yields a replicated list. -/
theorem map_range_const {α : Type} (n : Nat) (c : α) :
    (List.range n).map (fun _ => c) = List.replicate n c := by
  induction n with
  | zero => rfl
  | succ k ih =>
    rw [List.range_succ, List.map_append, ih, List.replicate_succ']
    rfl

/-- When the clock does not go backwards and the elapsed time fits in 64
bits, the unsigned 64-bit difference is the plain difference. -/
theorem sub64_eq_sub {a b : Nat} (h1 : b ≤ a) (h2 : a - b < 2 ^ 64) :
    sub64 a b = a - b := by
  unfold sub64
  omega

/-- C6. Latency and timestamp semantics: every record of every wrapper
operation stamps `access_timestamp` with the clock reading `e` taken after
the forwarded call (never the start reading) and `latency` with the unsigned
64-bit difference of the two readings; when the time source is monotone
(`s ≤ e`) and the elapsed time fits in 64 bits, that latency is exactly
`e - s` (hence non-negative). -/
theorem latency_timestamp_semantics (s e : Nat) (h1 : s ≤ e)
    (h2 : e - s < 2 ^ 64) :
    (∀ (σ : Type) tgt fname opts dbg (st : σ),
      (FileSystemTracingWrapper.NewWritableFile tgt s e fname opts dbg st).records.map
        (fun rec => (rec.access_timestamp, rec.latency)) = [(e, e - s)]) ∧
    (∀ (σ : Type) tgt name opts dbg (st : σ),
      (FileSystemTracingWrapper.NewDirectory tgt s e name opts dbg st).records.map
        (fun rec => (rec.access_timestamp, rec.latency)) = [(e, e - s)]) ∧
    (∀ (σ : Type) tgt dir opts dbg (st : σ),
      (FileSystemTracingWrapper.GetChildren tgt s e dir opts dbg st).records.map
        (fun rec => (rec.access_timestamp, rec.latency)) = [(e, e - s)]) ∧
    (∀ (σ : Type) tgt fname opts dbg (st : σ),
      (FileSystemTracingWrapper.DeleteFile tgt s e fname opts dbg st).records.map
        (fun rec => (rec.access_timestamp, rec.latency)) = [(e, e - s)]) ∧
    (∀ (σ : Type) tgt dirname opts dbg (st : σ),
      (FileSystemTracingWrapper.CreateDir tgt s e dirname opts dbg st).records.map
        (fun rec => (rec.access_timestamp, rec.latency)) = [(e, e - s)]) ∧
    (∀ (σ : Type) tgt dirname opts dbg (st : σ),
      (FileSystemTracingWrapper.CreateDirIfMissing tgt s e dirname opts dbg st).records.map
        (fun rec => (rec.access_timestamp, rec.latency)) = [(e, e - s)]) ∧
    (∀ (σ : Type) tgt dirname opts dbg (st : σ),
      (FileSystemTracingWrapper.DeleteDir tgt s e dirname opts dbg st).records.map
        (fun rec => (rec.access_timestamp, rec.latency)) = [(e, e - s)]) ∧
    (∀ (σ : Type) tgt fname opts dbg (st : σ),
      (FileSystemTracingWrapper.GetFileSize tgt s e fname opts dbg st).records.map
        (fun rec => (rec.access_timestamp, rec.latency)) = [(e, e - s)]) ∧
    (∀ (σ : Type) tgt n opts scratch dbg (st : σ),
      (FSSequentialFileTracingWrapper.Read tgt s e n opts scratch dbg st).records.map
        (fun rec => (rec.access_timestamp, rec.latency)) = [(e, e - s)]) ∧
    (∀ (σ : Type) tgt offset length (st : σ),
      (FSSequentialFileTracingWrapper.InvalidateCache tgt s e offset length st).records.map
        (fun rec => (rec.access_timestamp, rec.latency)) = [(e, e - s)]) ∧
    (∀ (σ : Type) tgt offset n opts scratch dbg (st : σ),
      (FSSequentialFileTracingWrapper.PositionedRead tgt s e offset n opts scratch dbg st).records.map
        (fun rec => (rec.access_timestamp, rec.latency)) = [(e, e - s)]) ∧
    (∀ (σ : Type) tgt offset n opts scratch dbg (st : σ),
      (FSRandomAccessFileTracingWrapper.Read tgt s e offset n opts scratch dbg st).records.map
        (fun rec => (rec.access_timestamp, rec.latency)) = [(e, e - s)]) ∧
    (∀ (σ : Type) tgt reqs opts dbg (st : σ),
      (FSRandomAccessFileTracingWrapper.MultiRead tgt s e reqs opts dbg st).records.map
        (fun rec => (rec.access_timestamp, rec.latency)) =
      List.replicate reqs.length (e, e - s)) ∧
    (∀ (σ : Type) tgt offset n opts dbg (st : σ),
      (FSRandomAccessFileTracingWrapper.Prefetch tgt s e offset n opts dbg st).records.map
        (fun rec => (rec.access_timestamp, rec.latency)) = [(e, e - s)]) ∧
    (∀ (σ : Type) tgt offset length (st : σ),
      (FSRandomAccessFileTracingWrapper.InvalidateCache tgt s e offset length st).records.map
        (fun rec => (rec.access_timestamp, rec.latency)) = [(e, e - s)]) ∧
    (∀ (σ : Type) tgt data opts dbg (st : σ),
      (FSWritableFileTracingWrapper.Append tgt s e data opts dbg st).records.map
        (fun rec => (rec.access_timestamp, rec.latency)) = [(e, e - s)]) ∧
    (∀ (σ : Type) tgt data offset opts dbg (st : σ),
      (FSWritableFileTracingWrapper.PositionedAppend tgt s e data offset opts dbg st).records.map
        (fun rec => (rec.access_timestamp, rec.latency)) = [(e, e - s)]) ∧
    (∀ (σ : Type) tgt size opts dbg (st : σ),
      (FSWritableFileTracingWrapper.Truncate tgt s e size opts dbg st).records.map
        (fun rec => (rec.access_timestamp, rec.latency)) = [(e, e - s)]) ∧
    (∀ (σ : Type) tgt opts dbg (st : σ),
      (FSWritableFileTracingWrapper.Close tgt s e opts dbg st).records.map
        (fun rec => (rec.access_timestamp, rec.latency)) = [(e, e - s)]) ∧
    (∀ (σ : Type) tgt opts dbg (st : σ),
      (FSWritableFileTracingWrapper.GetFileSize tgt s e opts dbg st).records.map
        (fun rec => (rec.access_timestamp, rec.latency)) = [(e, e - s)]) ∧
    (∀ (σ : Type) tgt offset length (st : σ),
      (FSWritableFileTracingWrapper.InvalidateCache tgt s e offset length st).records.map
        (fun rec => (rec.access_timestamp, rec.latency)) = [(e, e - s)]) ∧
    (∀ (σ : Type) tgt offset data opts dbg (st : σ),
      (FSRandomRWFileTracingWrapper.Write tgt s e offset data opts dbg st).records.map
        (fun rec => (rec.access_timestamp, rec.latency)) = [(e, e - s)]) ∧
    (∀ (σ : Type) tgt offset n opts scratch dbg (st : σ),
      (FSRandomRWFileTracingWrapper.Read tgt s e offset n opts scratch dbg st).records.map
        (fun rec => (rec.access_timestamp, rec.latency)) = [(e, e - s)]) := by
  have hs : sub64 e s = e - s := sub64_eq_sub h1 h2
  repeat' apply And.intro
  all_goals intros
  all_goals
    simp [FSRandomAccessFileTracingWrapper.MultiRead,
      FileSystemTracingWrapper.NewWritableFile,
      FileSystemTracingWrapper.NewDirectory,
      FileSystemTracingWrapper.GetChildren,
      FileSystemTracingWrapper.DeleteFile,
      FileSystemTracingWrapper.CreateDir,
      FileSystemTracingWrapper.CreateDirIfMissing,
      FileSystemTracingWrapper.DeleteDir,
      FileSystemTracingWrapper.GetFileSize,
      FSSequentialFileTracingWrapper.Read,
      FSSequentialFileTracingWrapper.InvalidateCache,
      FSSequentialFileTracingWrapper.PositionedRead,
      FSRandomAccessFileTracingWrapper.Read,
      FSRandomAccessFileTracingWrapper.Prefetch,
      FSRandomAccessFileTracingWrapper.InvalidateCache,
      FSWritableFileTracingWrapper.Append,
      FSWritableFileTracingWrapper.PositionedAppend,
      FSWritableFileTracingWrapper.Truncate,
      FSWritableFileTracingWrapper.Close,
      FSWritableFileTracingWrapper.GetFileSize,
      FSWritableFileTracingWrapper.InvalidateCache,
      FSRandomRWFileTracingWrapper.Write,
      FSRandomRWFileTracingWrapper.Read,
      hs, List.map_map, Function.comp_def, map_range_const, List.length_range]

/-- Stub `NewWritableFile` target used by the C6 witness: succeeds and
produces the handle 7. -/
def stubNewWritableFileTarget :
    String → FileOptions → IODebugContext → Unit →
      (IOStatus × Option FSWritableFile) × Unit :=
  fun _ _ _ st => ((statusOK, some 7), st)

/-- Witness for C6: with clock readings 3 then 5 (monotone, in range), the
`NewWritableFile` record is stamped with completion time 5 and latency 2. -/
theorem latency_timestamp_semantics_witness :
    3 ≤ 5 ∧ 5 - 3 < 2 ^ 64 ∧
    (FileSystemTracingWrapper.NewWritableFile stubNewWritableFileTarget 3 5
        "f.sst" () () ()).records.map
      (fun rec => (rec.access_timestamp, rec.latency)) = [(5, 2)] :=
  ⟨by decide, by decide,
   (latency_timestamp_semantics 3 5 (by decide) (by decide)).1 Unit
     stubNewWritableFileTarget "f.sst" () () ()⟩

/-- C7. Sequential-file read payload: the record emitted by the
sequential-file wrapper's `Read` (and `PositionedRead`) carries as length the
size of the result slice after the call — the bytes the target actually
returned — and therefore differs from the requested length `n` whenever the
actual length does (short reads, EOF); `PositionedRead` additionally records
the explicit offset. -/
theorem seqRead_actual_length_payload :
    (∀ (σ : Type) tgt s e n opts scratch dbg (st : σ),
      (FSSequentialFileTracingWrapper.Read tgt s e n opts scratch dbg st).records.map
        (fun rec => rec.len) = [((tgt n opts scratch dbg st).1.2).size]) ∧
    (∀ (σ : Type) tgt s e n opts scratch dbg (st : σ),
      ((tgt n opts scratch dbg st).1.2).size ≠ n →
        (FSSequentialFileTracingWrapper.Read tgt s e n opts scratch dbg st).records.map
          (fun rec => rec.len) ≠ [n]) ∧
    (∀ (σ : Type) tgt s e offset n opts scratch dbg (st : σ),
      (FSSequentialFileTracingWrapper.PositionedRead tgt s e offset n opts scratch dbg
          st).records.map (fun rec => (rec.len, rec.offset)) =
        [(((tgt offset n opts scratch dbg st).1.2).size, offset)]) ∧
    (∀ (σ : Type) tgt s e offset n opts scratch dbg (st : σ),
      ((tgt offset n opts scratch dbg st).1.2).size ≠ n →
        (FSSequentialFileTracingWrapper.PositionedRead tgt s e offset n opts scratch dbg
            st).records.map (fun rec => rec.len) ≠ [n]) := by
  refine ⟨?_, ?_, ?_, ?_⟩
  · intros; rfl
  · intro σ tgt s e n opts scratch dbg st h
    simpa [FSSequentialFileTracingWrapper.Read] using h
  · intros; rfl
  · intro σ tgt s e offset n opts scratch dbg st h
    simpa [FSSequentialFileTracingWrapper.PositionedRead] using h

/-- Stub sequential-read target used by the C7 witness: every read returns
the five bytes "hello" with an OK status (a short read when ten bytes were
requested). -/
def stubSeqReadTarget :
    Nat → IOOptions → Unit → IODebugContext → Unit → (IOStatus × Slice) × Unit :=
  fun _ _ _ _ st => ((statusOK, { data := "hello" }), st)

/-- Witness for C7: a read of up to 10 bytes that actually returns 5 bytes
produces a record whose length payload is 5, not the requested 10. -/
theorem seqRead_actual_length_payload_witness :
    ((stubSeqReadTarget 10 () () () ()).1.2).size ≠ 10 ∧
    (FSSequentialFileTracingWrapper.Read stubSeqReadTarget 3 5 10 () () ()
        ()).records.map (fun rec => rec.len) ≠ [10] ∧
    (FSSequentialFileTracingWrapper.Read stubSeqReadTarget 3 5 10 () () ()
        ()).records.map (fun rec => rec.len) = [5] :=
  ⟨by decide,
   seqRead_actual_length_payload.2.1 Unit stubSeqReadTarget 3 5 10 () () () ()
     (by decide),
   by decide⟩

/-- C8. Random-access read payload: the record emitted by the random-access
wrapper's `Read` is `kIOLenAndOffset` and carries the requested length
argument `n` and the given offset, whatever slice the target actually
returned. -/
theorem randomAccessRead_requested_payload :
    ∀ (σ : Type) tgt s e offset n opts scratch dbg (st : σ),
      (FSRandomAccessFileTracingWrapper.Read tgt s e offset n opts scratch dbg
          st).records.map
        (fun rec => (rec.trace_type, rec.len, rec.offset)) =
      [(TraceType.kIOLenAndOffset, n, offset)] := by
  intros; rfl

/-- C9. Writable-file size query: the wrapper returns exactly the size the
target returns, and its record is `kIOFileNameAndFileSize` with an empty
file-name placeholder, that size as the size payload, and the fixed
operation name "GetFileSize". -/
theorem writableGetFileSize_record :
    ∀ (σ : Type) tgt s e opts dbg (st : σ),
      (FSWritableFileTracingWrapper.GetFileSize tgt s e opts dbg st).ret =
        (tgt opts dbg st).1 ∧
      (FSWritableFileTracingWrapper.GetFileSize tgt s e opts dbg st).records.map
        (fun rec => (rec.trace_type, rec.file_name, rec.file_size, rec.file_operation)) =
      [(TraceType.kIOFileNameAndFileSize, "", (tgt opts dbg st).1, "GetFileSize")] := by
  intros; exact ⟨rfl, rfl⟩

/-- C10. MultiRead edge cases: with zero sub-requests the wrapper still
forwards the batch to the target exactly once (its caller-visible value and
final target state are those of one application of the target) and hands
zero records to the sink; and every record of any `MultiRead` call carries
the same completion timestamp `e`, the single post-call clock reading. -/
theorem multiRead_empty_and_shared_timestamp :
    (∀ (σ : Type) tgt s e opts dbg (st : σ),
      (FSRandomAccessFileTracingWrapper.MultiRead tgt s e [] opts dbg st).ret =
        ((tgt [] opts dbg st).1.1, (tgt [] opts dbg st).1.2) ∧
      (FSRandomAccessFileTracingWrapper.MultiRead tgt s e [] opts dbg st).fsState =
        (tgt [] opts dbg st).2 ∧
      (FSRandomAccessFileTracingWrapper.MultiRead tgt s e [] opts dbg st).records = []) ∧
    (∀ (σ : Type) tgt s e reqs opts dbg (st : σ),
      (FSRandomAccessFileTracingWrapper.MultiRead tgt s e reqs opts dbg st).records.map
        (fun rec => rec.access_timestamp) = List.replicate reqs.length e) := by
  refine ⟨?_, ?_⟩
  · intros; exact ⟨rfl, rfl, rfl⟩
  · intros
    simp [FSRandomAccessFileTracingWrapper.MultiRead, List.map_map,
      Function.comp_def, map_range_const, List.length_range]
